import Mathlib

/-!
Shallow embedding of `railway-deploy.py`, a deployment automation script.

The script defines `run_command(cmd, timeout=30)`, which shells out to the
Railway CLI via `subprocess.run`, and `main()`, which sets an authentication
token in the process environment, checks status, sets three environment
variables in a loop, and triggers a deployment.

The nondeterminism of the external world (what each spawned subprocess does)
is captured by an `Outcome` per invocation: the subprocess either exits with a
code and captured stdout/stderr texts, exceeds the timeout (Python raises
`subprocess.TimeoutExpired`), or some other exception is raised.  `main`
receives an assignment `outs : Nat → Outcome` giving the outcome of its i-th
subprocess invocation (0 = status, 1..3 = the variable sets, 4 = deploy).

Observable side effects (prints, environment mutation, command issuance,
sleeps) are recorded in an `Effect` trace.  Exceptions that may propagate are
modelled with `Except Exn`: `subprocess.run` is the fallible primitive, and a
function whose result type carries `Except Exn` may raise to its caller.
-/

namespace RailwayDeploy

/-- What the spawned subprocess does on one invocation. -/
inductive Outcome where
  | exited (code : Int) (stdout stderr : String)
  | timedOut
  | raised (msg : String)
deriving DecidableEq

/-- A Python exception escaping a call: `subprocess.TimeoutExpired` or any
other exception (carrying its message). -/
inductive Exn where
  | timeoutExpired (timeout : Nat)
  | other (msg : String)
deriving DecidableEq

/-- Observable side effects of the script. -/
inductive Effect where
  | print (s : String)
  | setEnv (key value : String)
  | exec (cmd : String) (timeout : Nat)
  | sleep (secs : Nat)
deriving DecidableEq

/-- `subprocess.run(cmd, shell=True, capture_output=True, text=True,
timeout=timeout, cwd=...)` (lines 16-23): given the subprocess outcome it
returns the completed process (return code, stdout text, stderr text) or
raises `TimeoutExpired` / another exception. -/
def subprocess_run (_cmd : String) (timeout : Nat) (out : Outcome) :
    Except Exn (Int × String × String) :=
  match out with
  | .exited code sout serr => .ok (code, sout, serr)
  | .timedOut => .error (.timeoutExpired timeout)
  | .raised msg => .error (.other msg)

/-- The default value of `run_command`'s `timeout` parameter (line 12:
`def run_command(cmd, timeout=30)`). -/
def run_command_default_timeout : Nat := 30

/-- `run_command` (lines 12-36).  Returns the captured stdout on exit code 0
and `None` otherwise; `TimeoutExpired` and all other exceptions are caught,
logged and turned into `None`.  The first component is `Except Exn (Option
String)`: an `.error` value would model an exception escaping to the caller.
The second component is the trace of side effects (the two prints happen
inside the `try`, then the branch-specific print). -/
def run_command (cmd : String) (timeout : Nat) (out : Outcome) :
    Except Exn (Option String) × List Effect :=
  let pre : List Effect := [.print ("🔄 Executing: " ++ cmd), .exec cmd timeout]
  match subprocess_run cmd timeout out with
  | .ok (code, sout, serr) =>
      if code = 0 then
        (.ok (some sout), pre ++ [.print ("✅ Success: " ++ sout)])
      else
        (.ok none, pre ++ [.print ("❌ Error: " ++ serr)])
  | .error (.timeoutExpired t) =>
      (.ok none, pre ++ [.print ("⏰ Timeout after " ++ toString t ++ "s")])
  | .error (.other msg) =>
      (.ok none, pre ++ [.print ("💥 Exception: " ++ msg)])

/-- The value `run_command` hands back for a given subprocess outcome. -/
def runVal : Outcome → Option String
  | .exited code sout _ => if code = 0 then some sout else none
  | .timedOut => none
  | .raised _ => none

/-- The fixed environment-variable mapping (lines 53-57), in insertion
order. -/
def env_vars : List (String × String) :=
  [("NODE_ENV", "production"),
   ("PORT", "3001"),
   ("WEBHOOK_SECRET", "auto-alert-webhook-secret-2024")]

/-- The f-string `f'railway variables --set "\x7bkey\x7d=\x7bvalue\x7d"'`
(line 60). -/
def setCmd (key value : String) : String :=
  "railway variables --set \"" ++ key ++ "=" ++ value ++ "\""

/-- The variable-set loop (lines 59-62): one `run_command` with timeout 10
per entry, followed by `time.sleep(1)`.  `i` is the invocation index assigned
to the next command.  The result value of each `run_command` call is bound
(and discarded), so a hypothetical exception would propagate. -/
def setVarsLoop : List (String × String) → Nat → (Nat → Outcome) →
    Except Exn (List Effect)
  | [], _, _ => pure []
  | (k, v) :: rest, i, outs => do
      let r := run_command (setCmd k v) 10 (outs i)
      let _ ← r.1
      let rtr ← setVarsLoop rest (i + 1) outs
      pure (r.2 ++ [Effect.sleep 1] ++ rtr)

/-- Python truthiness of `run_command`'s result: `None` and the empty string
are falsy, a non-empty string is truthy (used by `if deploy:` on line 68). -/
def truthy : Option String → Bool
  | none => false
  | some s => decide (s ≠ "")

/-- The final `if deploy: ... else: ...` branch of `main` (lines 68-73). -/
def finalBranch (deploy : Option String) : List Effect :=
  if truthy deploy then
    [.print "\n✅ Deployment initiated successfully!",
     .print "🔍 Check status with: railway logs",
     .print "🌐 Open dashboard: https://railway.app/dashboard"]
  else
    [.print "\n❌ Deployment failed - check Railway CLI manually"]

/-- `main` (lines 38-75).  The `Except Exn` result propagates any exception
escaping a step; the returned list is the trace of observable effects, in
program order. -/
def main (outs : Nat → Outcome) : Except Exn (List Effect) := do
  let intro : List Effect :=
    [.print "🚂 Railway Auto-Deploy für Auto-Alert SaaS",
     .print (String.mk (List.replicate 50 '=')),
     .setEnv "RAILWAY_TOKEN" "fbe36775-4296-484e-bd0f-72aa378e01e6",
     .print "\n📊 1. Checking Railway Status..."]
  let st := run_command "railway status" run_command_default_timeout (outs 0)
  let _status ← st.1
  let lp ← setVarsLoop env_vars 1 outs
  let dp := run_command "railway up --detach" 120 (outs 4)
  let deploy ← dp.1
  pure (intro ++ st.2
    ++ [Effect.print "\n🔑 2. Setting Environment Variables..."] ++ lp
    ++ [Effect.print "\n🚀 3. Starting Deployment..."] ++ dp.2
    ++ finalBranch deploy
    ++ [Effect.print "\n🎉 Railway Auto-Deploy Complete!"])

/-- The process exit code of `python railway-deploy.py` (line 77-78): 0 when
`main` returns normally, 1 when an exception escapes it. -/
def script_exit_code (outs : Nat → Outcome) : Nat :=
  match main outs with
  | .ok _ => 0
  | .error _ => 1

/-- The effect trace `main` produces (proved below to be `main`'s value for
every outcome assignment). -/
def setVarsTrace : List (String × String) → Nat → (Nat → Outcome) → List Effect
  | [], _, _ => []
  | (k, v) :: rest, i, outs =>
      (run_command (setCmd k v) 10 (outs i)).2 ++ [Effect.sleep 1]
        ++ setVarsTrace rest (i + 1) outs

/-- The full effect trace of `main` for a given outcome assignment. -/
def mainTrace (outs : Nat → Outcome) : List Effect :=
  [Effect.print "🚂 Railway Auto-Deploy für Auto-Alert SaaS",
   Effect.print (String.mk (List.replicate 50 '=')),
   Effect.setEnv "RAILWAY_TOKEN" "fbe36775-4296-484e-bd0f-72aa378e01e6",
   Effect.print "\n📊 1. Checking Railway Status..."]
  ++ (run_command "railway status" run_command_default_timeout (outs 0)).2
  ++ [Effect.print "\n🔑 2. Setting Environment Variables..."]
  ++ setVarsTrace env_vars 1 outs
  ++ [Effect.print "\n🚀 3. Starting Deployment..."]
  ++ (run_command "railway up --detach" 120 (outs 4)).2
  ++ finalBranch (runVal (outs 4))
  ++ [Effect.print "\n🎉 Railway Auto-Deploy Complete!"]

/-- The commands issued in a trace, with their timeouts, in order. -/
def execs (tr : List Effect) : List (String × Nat) :=
  tr.filterMap fun e =>
    match e with
    | .exec c t => some (c, t)
    | _ => none

/-- The environment mutations in a trace, in order. -/
def setEnvs (tr : List Effect) : List (String × String) :=
  tr.filterMap fun e =>
    match e with
    | .setEnv k v => some (k, v)
    | _ => none

/-- The fixed success message printed when the deploy result is truthy. -/
def successMsg : Effect := .print "\n✅ Deployment initiated successfully!"

/-- The fixed failure message printed when the deploy result is falsy. -/
def failMsg : Effect := .print "\n❌ Deployment failed - check Railway CLI manually"

/-- `run_command` always hands an `.ok` value back to its caller, namely
`runVal out`. -/
lemma run_command_fst_ok (cmd : String) (t : Nat) (out : Outcome) :
    (run_command cmd t out).1 = .ok (runVal out) := by
  cases out with
  | exited code sout serr =>
      by_cases hc : code = 0 <;> simp [run_command, subprocess_run, runVal, hc]
  | timedOut => rfl
  | raised msg => rfl

/-- The variable-set loop never propagates an exception; its trace is
`setVarsTrace`. -/
lemma setVarsLoop_eq (l : List (String × String)) (i : Nat) (outs : Nat → Outcome) :
    setVarsLoop l i outs = .ok (setVarsTrace l i outs) := by
  induction l generalizing i with
  | nil => rfl
  | cons kv rest ih =>
      obtain ⟨k, v⟩ := kv
      simp [setVarsLoop, setVarsTrace, run_command_fst_ok, ih, Bind.bind, Except.bind,
        Pure.pure, Except.pure]

/-- `main` returns normally for every outcome assignment, with trace
`mainTrace`. -/
lemma main_eq (outs : Nat → Outcome) : main outs = .ok (mainTrace outs) := by
  have h0 := run_command_fst_ok "railway status" run_command_default_timeout (outs 0)
  have h4 := run_command_fst_ok "railway up --detach" 120 (outs 4)
  simp [main, mainTrace, h0, h4, setVarsLoop_eq, Bind.bind, Except.bind,
    Pure.pure, Except.pure]

/-- A `run_command` call issues exactly its command, with its timeout. -/
lemma execs_run_command (cmd : String) (t : Nat) (out : Outcome) :
    execs (run_command cmd t out).2 = [(cmd, t)] := by
  cases out with
  | exited code sout serr =>
      by_cases hc : code = 0 <;> simp [run_command, subprocess_run, execs, hc]
  | timedOut => rfl
  | raised msg => rfl

/-- A `run_command` call never mutates the environment. -/
lemma setEnvs_run_command (cmd : String) (t : Nat) (out : Outcome) :
    setEnvs (run_command cmd t out).2 = [] := by
  cases out with
  | exited code sout serr =>
      by_cases hc : code = 0 <;> simp [run_command, subprocess_run, setEnvs, hc]
  | timedOut => rfl
  | raised msg => rfl

/-- `execs` distributes over trace concatenation. -/
lemma execs_append (a b : List Effect) : execs (a ++ b) = execs a ++ execs b := by
  simp [execs]

/-- `setEnvs` distributes over trace concatenation. -/
lemma setEnvs_append (a b : List Effect) : setEnvs (a ++ b) = setEnvs a ++ setEnvs b := by
  simp [setEnvs]

/-- The variable-set loop issues exactly one set command per entry, in list
order, each with timeout 10. -/
lemma execs_setVarsTrace (l : List (String × String)) (i : Nat) (outs : Nat → Outcome) :
    execs (setVarsTrace l i outs) = l.map fun kv => (setCmd kv.1 kv.2, 10) := by
  induction l generalizing i with
  | nil => rfl
  | cons kv rest ih =>
      obtain ⟨k, v⟩ := kv
      rw [setVarsTrace, execs_append, execs_append, execs_run_command, ih (i + 1)]
      rfl

/-- The variable-set loop never mutates the environment. -/
lemma setEnvs_setVarsTrace (l : List (String × String)) (i : Nat) (outs : Nat → Outcome) :
    setEnvs (setVarsTrace l i outs) = [] := by
  induction l generalizing i with
  | nil => rfl
  | cons kv rest ih =>
      obtain ⟨k, v⟩ := kv
      rw [setVarsTrace, setEnvs_append, setEnvs_append, setEnvs_run_command, ih (i + 1)]
      rfl

/-- The final branch only prints. -/
lemma execs_finalBranch (d : Option String) : execs (finalBranch d) = [] := by
  unfold finalBranch
  split <;> rfl

/-- The final branch never mutates the environment. -/
lemma setEnvs_finalBranch (d : Option String) : setEnvs (finalBranch d) = [] := by
  unfold finalBranch
  split <;> rfl

/-- The first character of `a ++ b` is the first character of a non-empty
`a`. -/
lemma head?_append_of_head? (a b : String) (c : Char) (h : a.data.head? = some c) :
    (a ++ b).data.head? = some c := by
  rw [String.data_append]
  cases ha : a.data with
  | nil => rw [ha] at h; exact absurd h (by simp)
  | cons x xs =>
      rw [ha] at h
      simpa using h

/-- Every print in a `run_command` trace starts with one of the status
emoji, never with a newline: a newline-initial message is not logged by
`run_command`. -/
lemma newline_print_notin_run (cmd : String) (t : Nat) (out : Outcome) (m : String)
    (hm : m.data.head? = some '\n') :
    Effect.print m ∉ (run_command cmd t out).2 := by
  intro hmem
  cases out with
  | exited code sout serr =>
      by_cases hc : code = 0
      · simp [run_command, subprocess_run, hc] at hmem
        rcases hmem with h | h
        · subst h
          rw [head?_append_of_head? "🔄 Executing: " cmd '🔄' rfl] at hm
          exact absurd hm (by decide)
        · subst h
          rw [head?_append_of_head? "✅ Success: " sout '✅' rfl] at hm
          exact absurd hm (by decide)
      · simp [run_command, subprocess_run, hc] at hmem
        rcases hmem with h | h
        · subst h
          rw [head?_append_of_head? "🔄 Executing: " cmd '🔄' rfl] at hm
          exact absurd hm (by decide)
        · subst h
          rw [head?_append_of_head? "❌ Error: " serr '❌' rfl] at hm
          exact absurd hm (by decide)
  | timedOut =>
      simp [run_command, subprocess_run] at hmem
      rcases hmem with h | h
      · subst h
        rw [head?_append_of_head? "🔄 Executing: " cmd '🔄' rfl] at hm
        exact absurd hm (by decide)
      · subst h
        rw [head?_append_of_head? ("⏰ Timeout after " ++ toString t) "s" '⏰'
          (head?_append_of_head? "⏰ Timeout after " (toString t) '⏰' rfl)] at hm
        exact absurd hm (by decide)
  | raised msg =>
      simp [run_command, subprocess_run] at hmem
      rcases hmem with h | h
      · subst h
        rw [head?_append_of_head? "🔄 Executing: " cmd '🔄' rfl] at hm
        exact absurd hm (by decide)
      · subst h
        rw [head?_append_of_head? "💥 Exception: " msg '💥' rfl] at hm
        exact absurd hm (by decide)

/-- A newline-initial message is never printed by the variable-set loop. -/
lemma newline_print_notin_setVars (l : List (String × String)) (i : Nat)
    (outs : Nat → Outcome) (m : String) (hm : m.data.head? = some '\n') :
    Effect.print m ∉ setVarsTrace l i outs := by
  induction l generalizing i with
  | nil => simp [setVarsTrace]
  | cons kv rest ih =>
      obtain ⟨k, v⟩ := kv
      intro hmem
      rw [setVarsTrace] at hmem
      rcases List.mem_append.1 hmem with h | h
      · rcases List.mem_append.1 h with h2 | h2
        · exact newline_print_notin_run _ _ _ _ hm h2
        · simp at h2
      · exact ih (i + 1) h

/-- The success message appears in the final branch exactly when the deploy
result is truthy. -/
lemma success_print_mem_finalBranch (d : Option String) :
    (Effect.print "\n✅ Deployment initiated successfully!" ∈ finalBranch d ↔
      truthy d = true) := by
  cases htr : truthy d <;> simp [finalBranch, htr]

/-- The failure message appears in the final branch exactly when the deploy
result is falsy. -/
lemma fail_print_mem_finalBranch (d : Option String) :
    (Effect.print "\n❌ Deployment failed - check Railway CLI manually" ∈ finalBranch d ↔
      truthy d = false) := by
  cases htr : truthy d <;> simp [finalBranch, htr]

/-- The success message appears in `main`'s trace exactly when the deploy
result is truthy. -/
lemma success_print_mem_mainTrace (outs : Nat → Outcome) :
    (Effect.print "\n✅ Deployment initiated successfully!" ∈ mainTrace outs ↔
      truthy (runVal (outs 4)) = true) := by
  have h0 := newline_print_notin_run "railway status" run_command_default_timeout (outs 0)
    "\n✅ Deployment initiated successfully!" (by decide)
  have h4 := newline_print_notin_run "railway up --detach" 120 (outs 4)
    "\n✅ Deployment initiated successfully!" (by decide)
  have hv := newline_print_notin_setVars env_vars 1 outs
    "\n✅ Deployment initiated successfully!" (by decide)
  have hrep : Effect.print "\n✅ Deployment initiated successfully!" ≠
      Effect.print (String.mk (List.replicate 50 '=')) := by decide
  simp [mainTrace, List.mem_append, h0, h4, hv, hrep, success_print_mem_finalBranch]

/-- The failure message appears in `main`'s trace exactly when the deploy
result is falsy. -/
lemma fail_print_mem_mainTrace (outs : Nat → Outcome) :
    (Effect.print "\n❌ Deployment failed - check Railway CLI manually" ∈ mainTrace outs ↔
      truthy (runVal (outs 4)) = false) := by
  have h0 := newline_print_notin_run "railway status" run_command_default_timeout (outs 0)
    "\n❌ Deployment failed - check Railway CLI manually" (by decide)
  have h4 := newline_print_notin_run "railway up --detach" 120 (outs 4)
    "\n❌ Deployment failed - check Railway CLI manually" (by decide)
  have hv := newline_print_notin_setVars env_vars 1 outs
    "\n❌ Deployment failed - check Railway CLI manually" (by decide)
  have hrep : Effect.print "\n❌ Deployment failed - check Railway CLI manually" ≠
      Effect.print (String.mk (List.replicate 50 '=')) := by decide
  simp [mainTrace, List.mem_append, h0, h4, hv, hrep, fail_print_mem_finalBranch]

/-- The deploy result is truthy exactly when the deploy subprocess exited
with code 0 and non-empty stdout. -/
lemma truthy_runVal_iff (out : Outcome) :
    (truthy (runVal out) = true ↔ ∃ sout serr, out = .exited 0 sout serr ∧ sout ≠ "") := by
  cases out with
  | exited code sout serr =>
      by_cases hc : code = 0
      · subst hc; simp [runVal, truthy]
      · simp [runVal, truthy, hc]
  | timedOut => simp [runVal, truthy]
  | raised msg => simp [runVal, truthy]

/-- The full command/timeout sequence `main` issues. -/
lemma execs_mainTrace (outs : Nat → Outcome) :
    execs (mainTrace outs) =
      [("railway status", 30),
       (setCmd "NODE_ENV" "production", 10),
       (setCmd "PORT" "3001", 10),
       (setCmd "WEBHOOK_SECRET" "auto-alert-webhook-secret-2024", 10),
       ("railway up --detach", 120)] := by
  rw [mainTrace]
  repeat rw [execs_append]
  rw [execs_run_command, execs_run_command, execs_setVarsTrace, execs_finalBranch]
  rfl

/-- The only environment mutation in `main`'s trace is the token
assignment. -/
lemma setEnvs_mainTrace (outs : Nat → Outcome) :
    setEnvs (mainTrace outs) =
      [("RAILWAY_TOKEN", "fbe36775-4296-484e-bd0f-72aa378e01e6")] := by
  rw [mainTrace]
  repeat rw [setEnvs_append]
  rw [setEnvs_run_command, setEnvs_run_command, setEnvs_setVarsTrace, setEnvs_finalBranch]
  rfl

/-- Claim C1: for every command string and timeout, `run_command` returns
the subprocess's captured standard-output text exactly when the subprocess
exits with code 0, and returns an absent result (`none`) when the exit code
is non-zero; in the non-zero case the captured stderr text is included in
the logged error output. -/
theorem run_command_exit_code_contract (cmd : String) (t : Nat) (code : Int)
    (sout serr : String) :
    ((run_command cmd t (.exited code sout serr)).1 = .ok (some sout) ↔ code = 0) ∧
    ((run_command cmd t (.exited code sout serr)).1 = .ok none ↔ code ≠ 0) ∧
    (code ≠ 0 →
      Effect.print ("❌ Error: " ++ serr) ∈
        (run_command cmd t (.exited code sout serr)).2) := by
  by_cases hc : code = 0 <;> simp [run_command, subprocess_run, hc]

/-- Witness for C1 at a concrete non-zero exit. -/
theorem run_command_exit_code_contract_witness :
    (1 : Int) ≠ 0 ∧
    (run_command "railway status" 30 (.exited 1 "" "boom")).1 = .ok none ∧
    Effect.print ("❌ Error: " ++ "boom") ∈
      (run_command "railway status" 30 (.exited 1 "" "boom")).2 :=
  ⟨by decide,
   (run_command_exit_code_contract "railway status" 30 1 "" "boom").2.1.mpr (by decide),
   (run_command_exit_code_contract "railway status" 30 1 "" "boom").2.2 (by decide)⟩

/-- Claim C2: `run_command` never raises to its caller: every subprocess
outcome yields an `.ok` result; a timeout yields an absent result plus a
logged timeout message, and any other exception is caught, logged and
converted to an absent result. -/
theorem run_command_never_raises (cmd : String) (t : Nat) :
    (∀ out, ∃ v, (run_command cmd t out).1 = .ok v) ∧
    run_command cmd t .timedOut =
      (.ok none, [.print ("🔄 Executing: " ++ cmd), .exec cmd t,
        .print ("⏰ Timeout after " ++ toString t ++ "s")]) ∧
    (∀ msg, run_command cmd t (.raised msg) =
      (.ok none, [.print ("🔄 Executing: " ++ cmd), .exec cmd t,
        .print ("💥 Exception: " ++ msg)])) :=
  ⟨fun out => ⟨runVal out, run_command_fst_ok cmd t out⟩, rfl, fun _ => rfl⟩

/-- Claim C3: the variable-set loop issues exactly one command per entry of
the fixed three-entry mapping, in insertion order, each command containing
the entry formatted as KEY=VALUE inside the set command, with a 1-second
sleep after each issuance. -/
theorem setVars_loop_commands (outs : Nat → Outcome) :
    setVarsLoop env_vars 1 outs = .ok (setVarsTrace env_vars 1 outs) ∧
    execs (setVarsTrace env_vars 1 outs) =
      [(setCmd "NODE_ENV" "production", 10),
       (setCmd "PORT" "3001", 10),
       (setCmd "WEBHOOK_SECRET" "auto-alert-webhook-secret-2024", 10)] ∧
    (∀ k v, List.IsInfix (k ++ "=" ++ v).data (setCmd k v).data) ∧
    ∃ t1 t2 t3,
      setVarsTrace env_vars 1 outs =
        t1 ++ [Effect.sleep 1] ++ t2 ++ [Effect.sleep 1] ++ t3 ++ [Effect.sleep 1] ∧
      execs t1 = [(setCmd "NODE_ENV" "production", 10)] ∧
      execs t2 = [(setCmd "PORT" "3001", 10)] ∧
      execs t3 = [(setCmd "WEBHOOK_SECRET" "auto-alert-webhook-secret-2024", 10)] := by
  refine ⟨setVarsLoop_eq env_vars 1 outs, ?_, ?_, ?_⟩
  · rw [execs_setVarsTrace]
    rfl
  · intro k v
    exact ⟨"railway variables --set \"".data, "\"".data,
      by simp [setCmd, String.data_append]⟩
  · refine ⟨(run_command (setCmd "NODE_ENV" "production") 10 (outs 1)).2,
      (run_command (setCmd "PORT" "3001") 10 (outs 2)).2,
      (run_command (setCmd "WEBHOOK_SECRET" "auto-alert-webhook-secret-2024") 10 (outs 3)).2,
      ?_, execs_run_command .., execs_run_command .., execs_run_command ..⟩
    simp [setVarsTrace, env_vars, List.append_assoc]

/-- Claim C4: if the deploy command returns a non-empty result `main`
prints the fixed success message (and not the failure message); if it
returns an absent result `main` prints the fixed failure message (and not
the success message); both branches are reachable. -/
theorem main_deploy_final_message :
    (∀ outs : Nat → Outcome, main outs = .ok (mainTrace outs) ∧
      ((∃ s, runVal (outs 4) = some s ∧ s ≠ "") →
        successMsg ∈ mainTrace outs ∧ failMsg ∉ mainTrace outs) ∧
      (runVal (outs 4) = none →
        failMsg ∈ mainTrace outs ∧ successMsg ∉ mainTrace outs)) ∧
    (∃ outs : Nat → Outcome, successMsg ∈ mainTrace outs) ∧
    (∃ outs : Nat → Outcome, failMsg ∈ mainTrace outs) := by
  refine ⟨fun outs => ⟨main_eq outs, ?_, ?_⟩,
    ⟨fun _ => .exited 0 "ok" "", (success_print_mem_mainTrace _).mpr (by decide)⟩,
    ⟨fun _ => .timedOut, (fail_print_mem_mainTrace _).mpr (by decide)⟩⟩
  · rintro ⟨s, hs, hne⟩
    have htr : truthy (runVal (outs 4)) = true := by rw [hs]; simp [truthy, hne]
    refine ⟨(success_print_mem_mainTrace outs).mpr htr, fun hmem => ?_⟩
    exact Bool.noConfusion (htr.symm.trans ((fail_print_mem_mainTrace outs).mp hmem))
  · intro hnone
    have htr : truthy (runVal (outs 4)) = false := by rw [hnone]; rfl
    refine ⟨(fail_print_mem_mainTrace outs).mpr htr, fun hmem => ?_⟩
    exact Bool.noConfusion (((success_print_mem_mainTrace outs).mp hmem).symm.trans htr)

/-- Witness for C4: a successful deploy prints the success message only; a
timed-out deploy prints the failure message only. -/
theorem main_deploy_final_message_witness :
    (∃ s, runVal ((fun _ => Outcome.exited 0 "ok" "") 4) = some s ∧ s ≠ "") ∧
    successMsg ∈ mainTrace (fun _ => Outcome.exited 0 "ok" "") ∧
    failMsg ∉ mainTrace (fun _ => Outcome.exited 0 "ok" "") ∧
    runVal ((fun _ => Outcome.timedOut) 4) = none ∧
    failMsg ∈ mainTrace (fun _ => Outcome.timedOut) ∧
    successMsg ∉ mainTrace (fun _ => Outcome.timedOut) := by
  have h1 := (main_deploy_final_message.1 (fun _ => Outcome.exited 0 "ok" "")).2.1
    ⟨"ok", rfl, by decide⟩
  have h2 := (main_deploy_final_message.1 (fun _ => Outcome.timedOut)).2.2 rfl
  exact ⟨⟨"ok", rfl, by decide⟩, h1.1, h1.2, rfl, h2.1, h2.2⟩

/-- Claim C5: `main` always issues, in order, one status command, the three
variable-set commands, then one deploy command — for every combination of
step outcomes, so no earlier failure prevents the deploy command. -/
theorem main_issues_full_sequence (outs : Nat → Outcome) :
    main outs = .ok (mainTrace outs) ∧
    execs (mainTrace outs) =
      [("railway status", 30),
       (setCmd "NODE_ENV" "production", 10),
       (setCmd "PORT" "3001", 10),
       (setCmd "WEBHOOK_SECRET" "auto-alert-webhook-secret-2024", 10),
       ("railway up --detach", 120)] :=
  ⟨main_eq outs, execs_mainTrace outs⟩

/-- Claim C6: for every combination of step outcomes the script terminates
normally with process exit code 0. -/
theorem script_always_exits_zero (outs : Nat → Outcome) :
    script_exit_code outs = 0 := by
  unfold script_exit_code
  rw [main_eq]

/-- Claim C7: the only process-environment mutation is setting
RAILWAY_TOKEN once, and it happens before the first subprocess command is
issued. -/
theorem env_token_set_once_before_commands (outs : Nat → Outcome) :
    main outs = .ok (mainTrace outs) ∧
    setEnvs (mainTrace outs) =
      [("RAILWAY_TOKEN", "fbe36775-4296-484e-bd0f-72aa378e01e6")] ∧
    ∃ pre post,
      mainTrace outs =
        pre ++ Effect.setEnv "RAILWAY_TOKEN" "fbe36775-4296-484e-bd0f-72aa378e01e6" :: post ∧
      execs pre = [] ∧ setEnvs post = [] := by
  refine ⟨main_eq outs, setEnvs_mainTrace outs,
    [Effect.print "🚂 Railway Auto-Deploy für Auto-Alert SaaS",
     Effect.print (String.mk (List.replicate 50 '='))],
    [Effect.print "\n📊 1. Checking Railway Status..."]
      ++ ((run_command "railway status" run_command_default_timeout (outs 0)).2
      ++ ([Effect.print "\n🔑 2. Setting Environment Variables..."]
      ++ (setVarsTrace env_vars 1 outs
      ++ ([Effect.print "\n🚀 3. Starting Deployment..."]
      ++ ((run_command "railway up --detach" 120 (outs 4)).2
      ++ (finalBranch (runVal (outs 4))
      ++ [Effect.print "\n🎉 Railway Auto-Deploy Complete!"])))))), ?_, rfl, ?_⟩
  · simp [mainTrace, List.append_assoc]
  · simp only [setEnvs_append, setEnvs_run_command, setEnvs_setVarsTrace,
      setEnvs_finalBranch]
    rfl

/-- Claim C8 counterexample: two runs that differ only in the deploy
subprocess's outcome (hence only in that `run_command` result) end with
different final messages, so a branch of `main` does depend on a
`run_command` result. -/
theorem main_branches_on_deploy_result :
    runVal (Outcome.exited 0 "ok" "") ≠ runVal (Outcome.exited 1 "" "err") ∧
    successMsg ∈ mainTrace (fun _ => Outcome.exited 0 "ok" "") ∧
    failMsg ∈ mainTrace
      (fun n => if n = 4 then Outcome.exited 1 "" "err" else Outcome.exited 0 "ok" "") ∧
    successMsg ∉ mainTrace
      (fun n => if n = 4 then Outcome.exited 1 "" "err" else Outcome.exited 0 "ok" "") := by
  refine ⟨by decide, (success_print_mem_mainTrace _).mpr (by decide),
    (fail_print_mem_mainTrace _).mpr (by decide), fun h => ?_⟩
  exact absurd ((success_print_mem_mainTrace _).mp h) (by decide)

/-- Claim C8 amended: the status and variable-set results never influence
`main`'s behavior; the only result-dependent branch is the final message,
chosen from the deploy result alone. -/
theorem main_branches_only_on_deploy (outs : Nat → Outcome) :
    main outs = .ok (mainTrace outs) ∧
    ∃ pre, mainTrace outs =
        pre ++ finalBranch (runVal (outs 4))
          ++ [Effect.print "\n🎉 Railway Auto-Deploy Complete!"] ∧
      successMsg ∉ pre ∧ failMsg ∉ pre := by
  refine ⟨main_eq outs,
    [Effect.print "🚂 Railway Auto-Deploy für Auto-Alert SaaS",
     Effect.print (String.mk (List.replicate 50 '=')),
     Effect.setEnv "RAILWAY_TOKEN" "fbe36775-4296-484e-bd0f-72aa378e01e6",
     Effect.print "\n📊 1. Checking Railway Status..."]
      ++ (run_command "railway status" run_command_default_timeout (outs 0)).2
      ++ [Effect.print "\n🔑 2. Setting Environment Variables..."]
      ++ setVarsTrace env_vars 1 outs
      ++ [Effect.print "\n🚀 3. Starting Deployment..."]
      ++ (run_command "railway up --detach" 120 (outs 4)).2, ?_, ?_, ?_⟩
  · simp [mainTrace, List.append_assoc]
  · intro h
    simp only [List.append_assoc, List.mem_append] at h
    rcases h with h | h | h | h | h | h
    · exact absurd h (by decide)
    · exact newline_print_notin_run _ _ _ _ (by decide) h
    · exact absurd h (by decide)
    · exact newline_print_notin_setVars _ _ _ _ (by decide) h
    · exact absurd h (by decide)
    · exact newline_print_notin_run _ _ _ _ (by decide) h
  · intro h
    simp only [List.append_assoc, List.mem_append] at h
    rcases h with h | h | h | h | h | h
    · exact absurd h (by decide)
    · exact newline_print_notin_run _ _ _ _ (by decide) h
    · exact absurd h (by decide)
    · exact newline_print_notin_setVars _ _ _ _ (by decide) h
    · exact absurd h (by decide)
    · exact newline_print_notin_run _ _ _ _ (by decide) h

/-- Claim C9: a deploy subprocess that exits 0 with empty stdout makes
`run_command` return the present empty string, yet `main`'s truthiness
check treats it as absent and prints the failure message; the success
message is printed iff the deploy subprocess exits 0 with non-empty
stdout. -/
theorem main_empty_stdout_edge (outs : Nat → Outcome) :
    (run_command "railway up --detach" 120 (Outcome.exited 0 "" "")).1 = .ok (some "") ∧
    main outs = .ok (mainTrace outs) ∧
    (successMsg ∈ mainTrace outs ↔
      ∃ sout serr, outs 4 = .exited 0 sout serr ∧ sout ≠ "") ∧
    (outs 4 = Outcome.exited 0 "" "" →
      failMsg ∈ mainTrace outs ∧ successMsg ∉ mainTrace outs) := by
  refine ⟨rfl, main_eq outs,
    (success_print_mem_mainTrace outs).trans (truthy_runVal_iff (outs 4)), ?_⟩
  intro h4
  have htr : truthy (runVal (outs 4)) = false := by rw [h4]; rfl
  refine ⟨(fail_print_mem_mainTrace outs).mpr htr, fun hmem => ?_⟩
  exact Bool.noConfusion (((success_print_mem_mainTrace outs).mp hmem).symm.trans htr)

/-- Witness for C9: the all-steps-exit-0-with-empty-stdout run prints the
failure message and not the success message. -/
theorem main_empty_stdout_edge_witness :
    ((fun _ => Outcome.exited 0 "" "") 4 = Outcome.exited 0 "" "") ∧
    failMsg ∈ mainTrace (fun _ => Outcome.exited 0 "" "") ∧
    successMsg ∉ mainTrace (fun _ => Outcome.exited 0 "" "") :=
  ⟨rfl, ((main_empty_stdout_edge (fun _ => Outcome.exited 0 "" "")).2.2.2 rfl).1,
    ((main_empty_stdout_edge (fun _ => Outcome.exited 0 "" "")).2.2.2 rfl).2⟩

/-- Claim C10: the per-call timeouts are fixed constants per command kind:
the status command uses `run_command`'s default of 30 seconds, each
variable-set command uses 10 seconds, the deploy command uses 120
seconds. -/
theorem per_command_timeouts (outs : Nat → Outcome) :
    run_command_default_timeout = 30 ∧
    execs (mainTrace outs) =
      [("railway status", run_command_default_timeout),
       (setCmd "NODE_ENV" "production", 10),
       (setCmd "PORT" "3001", 10),
       (setCmd "WEBHOOK_SECRET" "auto-alert-webhook-secret-2024", 10),
       ("railway up --detach", 120)] :=
  ⟨rfl, by rw [execs_mainTrace]; rfl⟩

end RailwayDeploy
